import Mathlib

/-!
Verification of the api-demo repository: a shallow embedding of its
HTTP-interceptor pipeline, query-string serializer and CRUD mutation hooks,
with theorems settling the behavioural claims of the specification.
-/

set_option maxHeartbeats 1000000

namespace ApiDemo

/-- Model of a JavaScript runtime value, covering the shapes the hooks
manipulate: undefined, null, booleans, numbers (modelled as integers),
strings, arrays and plain objects (association lists of fields). -/
inductive JSValue where
  | vUndefined : JSValue
  | vNull : JSValue
  | vBool : Bool → JSValue
  | vNum : Int → JSValue
  | vStr : String → JSValue
  | vArr : List JSValue → JSValue
  | vObj : List (String × JSValue) → JSValue
deriving Repr

/-- JavaScript truthiness: undefined, null, false, 0 and the empty string
are falsy; every array and object is truthy. -/
def truthy : JSValue → Bool
  | .vUndefined => false
  | .vNull => false
  | .vBool b => b
  | .vNum n => n != 0
  | .vStr s => s != ""
  | .vArr _ => true
  | .vObj _ => true

mutual

/-- JavaScript string coercion (template literals, String(v)): arrays join
their elements with commas, null and undefined elements of an array render
as the empty string, plain objects render as the object placeholder. -/
def jsToString : JSValue → String
  | .vUndefined => "undefined"
  | .vNull => "null"
  | .vBool b => if b then "true" else "false"
  | .vNum n => toString n
  | .vStr s => s
  | .vArr xs => String.intercalate "," (jsArrParts xs)
  | .vObj _ => "[object Object]"

/-- Rendering of the elements of an array for Array.prototype.join: null
and undefined render as empty strings, every other element via jsToString. -/
def jsArrParts : List JSValue → List String
  | [] => []
  | .vUndefined :: rest => "" :: jsArrParts rest
  | .vNull :: rest => "" :: jsArrParts rest
  | v :: rest => jsToString v :: jsArrParts rest

end

/-- Field presence test, the JavaScript `in` operator on a plain object. -/
def hasField (fields : List (String × JSValue)) (k : String) : Bool :=
  fields.any (fun f => f.1 == k)

/-- Field access on a plain object: the value of the first binding of the
key, undefined when the key is absent. -/
def getField (fields : List (String × JSValue)) (k : String) : JSValue :=
  match fields.find? (fun f => f.1 == k) with
  | some f => f.2
  | none => .vUndefined

/-- Uppercase hexadecimal digit for a value below 16. -/
def hexDigit (n : Nat) : Char :=
  if n < 10 then Char.ofNat (48 + n) else Char.ofNat (55 + n)

/-- Percent-escape of one byte, two uppercase hexadecimal digits. -/
def percentByte (b : Nat) : String :=
  String.mk [Char.ofNat 37, hexDigit (b / 16), hexDigit (b % 16)]

/-- UTF-8 bytes of a Unicode code point. -/
def utf8Bytes (n : Nat) : List Nat :=
  if n < 0x80 then [n]
  else if n < 0x800 then [0xC0 + n / 64, 0x80 + n % 64]
  else if n < 0x10000 then [0xE0 + n / 4096, 0x80 + (n / 64) % 64, 0x80 + n % 64]
  else [0xF0 + n / 0x40000, 0x80 + (n / 4096) % 64, 0x80 + (n / 64) % 64, 0x80 + n % 64]

/-- Characters encodeURIComponent leaves unescaped: ASCII letters, digits
and the marks - _ . ! ~ * ( ) and the apostrophe (code 39). -/
def isUnescapedChar (c : Char) : Bool :=
  c.isAlphanum || c == Char.ofNat 45 || c == Char.ofNat 95 || c == Char.ofNat 46 ||
    c == Char.ofNat 33 || c == Char.ofNat 126 || c == Char.ofNat 42 ||
    c == Char.ofNat 39 || c == Char.ofNat 40 || c == Char.ofNat 41

/-- Model of the encodeURIComponent built-in: unescaped characters are kept,
every other character is replaced by the percent-escapes of its UTF-8 bytes. -/
def encodeURIComponent (s : String) : String :=
  s.data.foldl (fun acc c =>
    acc ++ (if isUnescapedChar c then String.singleton c
            else String.join ((utf8Bytes c.toNat).map percentByte))) ""

/-- Model of Array.prototype.join with an explicit separator. -/
def joinSep (sep : String) : List String → String
  | [] => ""
  | [x] => x
  | x :: xs => x ++ sep ++ joinSep sep xs

/-- Fragment contributed by one key of the params object, translated from
the map callback of buildQueryString in the helper-function module: null and
undefined values give the empty fragment, an array value gives one
key=value pair per element joined with ampersands, any other value one
key=value pair (values are string-coerced by encodeURIComponent). -/
def fragmentOf (k : String) (v : JSValue) : String :=
  match v with
  | .vNull => ""
  | .vUndefined => ""
  | .vArr xs =>
    joinSep "&" (xs.map (fun e =>
      encodeURIComponent k ++ "=" ++ encodeURIComponent (jsToString e)))
  | v => encodeURIComponent k ++ "=" ++ encodeURIComponent (jsToString v)

/-- Translation of buildQueryString: a missing or empty params object gives
the empty string; otherwise the per-key fragments are computed, empty
fragments dropped, the rest joined with ampersands, and a question mark is
prepended exactly when the result is non-empty. -/
def buildQueryString (params : Option (List (String × JSValue))) : String :=
  match params with
  | none => ""
  | some ps =>
    if ps.length == 0 then ""
    else
      let queryString := joinSep "&"
        ((ps.map (fun e => fragmentOf e.1 e.2)).filter (fun p => p != ""))
      if queryString == "" then "" else "?" ++ queryString

/-- Pairs contributed by one params entry, stated the way the specification
reads: null and undefined contribute none, an array contributes one pair per
element in order, anything else one pair. -/
def entryPairs (e : String × JSValue) : List String :=
  match e.2 with
  | .vNull => []
  | .vUndefined => []
  | .vArr xs => xs.map (fun v =>
      encodeURIComponent e.1 ++ "=" ++ encodeURIComponent (jsToString v))
  | v => [encodeURIComponent e.1 ++ "=" ++ encodeURIComponent (jsToString v)]

/-- All pairs of a params object in order. -/
def queryPairs (ps : List (String × JSValue)) : List String :=
  (ps.map entryPairs).flatten

/-- Rendering of a pair list as a query string: empty gives the empty
string, otherwise a question mark followed by the ampersand-joined pairs. -/
def renderQuery (pairs : List String) : String :=
  match pairs with
  | [] => ""
  | _ => "?" ++ joinSep "&" pairs

/-- Server response envelope, the wire contract of the backend. -/
structure ApiEnvelope where
  statusCode : Nat
  error : Bool
  message : Option String
  data : Option JSValue

/-- Settled HTTP response handed to the success handler of the response
interceptor: the HTTP status and the parsed body; none models an absent or
empty (falsy) body. -/
structure AxiosResp where
  status : Nat
  body : Option ApiEnvelope

/-- Model of the JavaScript expression m OR d on an optional string: the
default is used when the string is missing or empty (falsy). -/
def strOrDefault (m : Option String) (d : String) : String :=
  match m with
  | some s => if s == "" then d else s
  | none => d

/-- Value produced by the first-variant success handler: the response body
when the HTTP status is a success, otherwise the implicit undefined of a
JavaScript function that falls through without returning. -/
inductive V1Result where
  | envelope : ApiEnvelope → V1Result
  | implicitUndefined : V1Result

/-- Translation of the first response-interceptor success handler in the
instance module: throws when the body is absent, returns the body when the
HTTP status is 200 or 201, and otherwise falls through returning undefined.
The envelope fields statusCode and error are never consulted. -/
def interceptResponseV1 (res : AxiosResp) : Except String V1Result :=
  match res.body with
  | none => .error "Error in response"
  | some env =>
    if res.status == 200 || res.status == 201 then .ok (.envelope env)
    else .ok .implicitUndefined

/-- Translation of the second-variant response-interceptor success handler:
throws when the body is absent, returns the response unchanged when the
envelope statusCode is 200 or 201 with the error flag false, and otherwise
throws an error carrying the envelope message or a fixed default. -/
def interceptResponseV2 (res : AxiosResp) : Except String AxiosResp :=
  match res.body with
  | none => .error "Error in response"
  | some env =>
    if (env.statusCode == 200 || env.statusCode == 201) && env.error == false then
      .ok res
    else
      .error (strOrDefault env.message "Unknown API error")

/-- Translation of the private request method of the second-variant
Instance class: run the interceptor chain, then resolve with the body of
the response it returned. The interceptor only returns responses whose
body is present, so the fallback envelope of getD is unreachable. -/
def instanceRequestV2 (res : AxiosResp) : Except String ApiEnvelope :=
  match interceptResponseV2 res with
  | .error e => .error e
  | .ok r => .ok (r.body.getD ⟨0, true, none, none⟩)

/-- Translation of the queryFn of useFetchData in the api hooks directory:
awaits the instance get (second variant), resolves with the envelope data
when the envelope statusCode is 200, and otherwise throws the envelope
message or a fetch-specific default. -/
def fetchQueryFn (res : AxiosResp) : Except String JSValue :=
  match instanceRequestV2 res with
  | .error e => .error e
  | .ok response =>
    if response.statusCode == 200 then .ok (response.data.getD .vUndefined)
    else .error (strOrDefault response.message "Failed to fetch data")

/-- Browser-side session state touched by the error handlers: the local
storage contents, the current location and the next-auth session flag. -/
structure BrowserState where
  localStorage : List (String × String)
  locationHref : String
  signedOut : Bool

/-- Transport error handed to the error handler of the response
interceptor: the HTTP status of the response when one was received. -/
structure AxiosErr where
  status : Option Nat
  message : String

/-- Translation of the first-variant response-interceptor error handler: on
status 401 the local storage is cleared (the login redirect line is
commented out in the source); the other status cases only log; the original
error is always re-raised. -/
def responseErrorV1 (err : AxiosErr) (st : BrowserState) : BrowserState × AxiosErr :=
  (if err.status == some 401 then { st with localStorage := [] } else st, err)

/-- Translation of the second-variant response-interceptor error handler:
on status 401 it signs the session out, clears local storage and redirects
the window to the login route; the original error is always re-raised. -/
def responseErrorV2 (err : AxiosErr) (st : BrowserState) : BrowserState × AxiosErr :=
  (if err.status == some 401 then
    { localStorage := [], locationHref := "/login", signedOut := true }
   else st, err)

/-- Outgoing request built by a PUT-style mutation. -/
structure PutRequest where
  url : String
  body : JSValue

/-- Translation of the variable-shape detection in the mutationFn of
usePutData (identical in both put hooks): an object bearing both an id and
a payload field sends the payload to url slash id when the id is truthy and
to the bare url otherwise; any other variables value is sent unchanged to
the bare url. -/
def putMutationRequest (url : String) (vars : JSValue) : PutRequest :=
  match vars with
  | .vObj fields =>
    if hasField fields "id" && hasField fields "payload" then
      let id := getField fields "id"
      { url := if truthy id then url ++ "/" ++ jsToString id else url,
        body := getField fields "payload" }
    else { url := url, body := .vObj fields }
  | v => { url := url, body := v }

/-- Error thrown by a put mutationFn: the message and the statusCode field
attached by Object.assign when present. -/
structure ThrownError where
  message : String
  statusCode : Option Nat

/-- Translation of the envelope check in the mutationFn of usePutData
(identical in both put hooks): statusCode 200 or 201 resolves with the
envelope data; otherwise the error message defaults through the nullish
coalescing operator, statusCode 400 throws it annotated with 400,
statusCode 401 throws the fixed message Unauthorized annotated with 401,
and every other failure throws the message unannotated. -/
def putHandleResponse (response : ApiEnvelope) : Except ThrownError JSValue :=
  if response.statusCode == 200 || response.statusCode == 201 then
    .ok (response.data.getD .vUndefined)
  else
    let errorMessage := response.message.getD "An error occurred while updating data"
    if response.statusCode == 400 then .error ⟨errorMessage, some 400⟩
    else if response.statusCode == 401 then .error ⟨"Unauthorized", some 401⟩
    else .error ⟨errorMessage, none⟩

/-- Query cache of the caching engine, keyed by the single string the hooks
put into their query-key arrays; an absent entry reads as undefined, the
way getQueryData reports it. -/
def Cache : Type := String → JSValue

/-- Model of setQueryData with a plain value: writing undefined is a no-op
(the engine bails out), any other value replaces the entry. -/
def setQueryData (c : Cache) (k : String) (v : JSValue) : Cache :=
  match v with
  | .vUndefined => c
  | v => fun q => if q == k then v else c q

/-- Model of setQueryData with an updater function: the updater receives
the current entry and its result is stored under the same bail-out rule. -/
def setQueryDataFn (c : Cache) (k : String) (f : JSValue → JSValue) : Cache :=
  setQueryData c k (f (c k))

/-- Mutation context snapshotted by onMutate: the previous cache value
(undefined when nothing was cached) and the first configured query key. -/
structure MutationCtx where
  previousData : JSValue
  queryKey : String

/-- Translation of the onMutate handler of the usePut teaching hook: with a
non-empty invalidateQueries list it snapshots the entry under the first
key, optimistically writes the mutation variables there, and returns the
snapshot as context; otherwise it defers to the caller (modelled as no
context). -/
def putOnMutate (invalidateQueries : List String) (vars : JSValue) (c : Cache) :
    Cache × Option MutationCtx :=
  match invalidateQueries with
  | [] => (c, none)
  | queryKey :: _ =>
    let previousData := c queryKey
    (setQueryData c queryKey vars, some ⟨previousData, queryKey⟩)

/-- String the item id renders to in the filter callback of the useDelete
optimistic update: none when the item has no id or a nullish one, guarded
by the optional-chaining operator. -/
def itemIdString (item : JSValue) : Option String :=
  match item with
  | .vObj fields =>
    match getField fields "id" with
    | .vUndefined => none
    | .vNull => none
    | v => some (jsToString v)
  | _ => none

/-- Updater passed to setQueryData by the useDelete onMutate handler: an
array drops the items whose id stringifies to the deleted id, any other
value is returned unchanged. -/
def deleteOptimistic (id : String) (old : JSValue) : JSValue :=
  match old with
  | .vArr xs => .vArr (xs.filter (fun item => itemIdString item != some id))
  | v => v

/-- Translation of the onMutate handler of the useDelete teaching hook:
with a non-empty invalidateQueries list it snapshots the entry under the
first key, optimistically filters the deleted item out of it, and returns
the snapshot as context. -/
def deleteOnMutate (invalidateQueries : List String) (id : String) (c : Cache) :
    Cache × Option MutationCtx :=
  match invalidateQueries with
  | [] => (c, none)
  | queryKey :: _ =>
    let previousData := c queryKey
    (setQueryDataFn c queryKey (deleteOptimistic id), some ⟨previousData, queryKey⟩)

/-- Translation of the onError handler shared by the usePut and useDelete
teaching hooks: the snapshot is written back only when both the snapshotted
value and the query key are truthy. -/
def rollbackOnError (c : Cache) (ctx : Option MutationCtx) : Cache :=
  match ctx with
  | none => c
  | some context =>
    if truthy context.previousData && truthy (.vStr context.queryKey) then
      setQueryData c context.queryKey context.previousData
    else c

/-- Cache after a usePut mutation that performed its onMutate step and then
failed, running onError. -/
def putFailingMutation (invalidateQueries : List String) (vars : JSValue) (c : Cache) :
    Cache :=
  let r := putOnMutate invalidateQueries vars c
  rollbackOnError r.1 r.2

/-- Cache after a useDelete mutation that performed its onMutate step and
then failed, running onError. -/
def deleteFailingMutation (invalidateQueries : List String) (id : String) (c : Cache) :
    Cache :=
  let r := deleteOnMutate invalidateQueries id c
  rollbackOnError r.1 r.2

/-- Translation of the mutationFn of the useDelete teaching hook, tracking
whether the network request was issued: when a confirmation message is
configured and the user declines, it throws the cancellation error before
any request; otherwise the DELETE goes to url slash id (the ok payload
records the requested URL). -/
def deleteMutationFn (url : String) (confirmMessage : Option String)
    (userConfirms : Bool) (id : String) : Except String String × Bool :=
  match confirmMessage with
  | some _ =>
    if userConfirms then (.ok (url ++ "/" ++ id), true)
    else (.error "Deletion cancelled", false)
  | none => (.ok (url ++ "/" ++ id), true)

/-- Shape test performed by the put mutationFn: a non-null object bearing
both an id and a payload field. -/
def isKeyedVariables : JSValue → Bool
  | .vObj fields => hasField fields "id" && hasField fields "payload"
  | _ => false

/-- Statement of claim C1 as written, specialized to its refutable first
clause: whenever the envelope carries no data field, the second-variant
success handler raises. -/
def C1ClaimStatement : Prop :=
  ∀ (res : AxiosResp) (env : ApiEnvelope),
    res.body = some env → env.data = none →
    ∃ e, interceptResponseV2 res = .error e

/-- Statement of claim C2 as written: after a failing optimistic update or
delete mutation, the entry under the affected key equals the pre-mutation
snapshot. -/
def C2ClaimStatement : Prop :=
  (∀ (queryKey : String) (rest : List String) (vars : JSValue) (c : Cache),
    putFailingMutation (queryKey :: rest) vars c queryKey = c queryKey) ∧
  (∀ (queryKey : String) (rest : List String) (id : String) (c : Cache),
    deleteFailingMutation (queryKey :: rest) id c queryKey = c queryKey)

/-- Statement of claim C3 as written: keyed variables always produce the
url slash id; any other variables leave the url unchanged and travel as the
body. -/
def C3ClaimStatement : Prop :=
  (∀ (url : String) (fields : List (String × JSValue)),
    hasField fields "id" = true → hasField fields "payload" = true →
    putMutationRequest url (.vObj fields) =
      ⟨url ++ "/" ++ jsToString (getField fields "id"), getField fields "payload"⟩) ∧
  (∀ (url : String) (v : JSValue), isKeyedVariables v = false →
    putMutationRequest url v = ⟨url, v⟩)

/-- Statement of claim C4 as written: every 401 clears local storage,
redirects to the login route and re-raises the original error, in both
interceptor variants. -/
def C4ClaimStatement : Prop :=
  ∀ (err : AxiosErr) (st : BrowserState), err.status = some 401 →
    ((responseErrorV1 err st).1.localStorage = [] ∧
     (responseErrorV1 err st).1.locationHref = "/login" ∧
     (responseErrorV1 err st).2 = err) ∧
    ((responseErrorV2 err st).1.localStorage = [] ∧
     (responseErrorV2 err st).1.locationHref = "/login" ∧
     (responseErrorV2 err st).2 = err)

/-- Statement of claim C9 as written: a failing put mutation surfaces the
envelope message unchanged, and carries a statusCode field exactly when the
envelope statusCode is 400 or 401. -/
def C9ClaimStatement : Prop :=
  ∀ (response : ApiEnvelope) (e : ThrownError),
    putHandleResponse response = .error e →
    (∀ m, response.message = some m → e.message = m) ∧
    (e.statusCode ≠ none ↔ (response.statusCode = 400 ∨ response.statusCode = 401))

/-! ## Helper lemmas for the serializer proofs -/

theorem str_eq_empty_of_length (x : String) (h : x.length = 0) : x = "" := by
  cases x with | mk d =>
  cases d with
  | nil => rfl
  | cons c cs => simp [String.length] at h

theorem string_append_ne_empty_of_mid (a m b : String) (hm : m.length ≠ 0) :
    a ++ m ++ b ≠ "" := by
  intro h
  have hl := congrArg String.length h
  rw [String.length_append, String.length_append] at hl
  have h0 : ("" : String).length = 0 := by decide
  omega

theorem pair_ne_empty (a b : String) : a ++ "=" ++ b ≠ "" :=
  string_append_ne_empty_of_mid a "=" b (by decide)

theorem joinSep_cons_ne (s x : String) (t : List String) (hx : x ≠ "") :
    joinSep s (x :: t) ≠ "" := by
  cases t with
  | nil => simpa [joinSep] using hx
  | cons y t =>
    show x ++ s ++ joinSep s (y :: t) ≠ ""
    intro h
    have hl := congrArg String.length h
    rw [String.length_append, String.length_append] at hl
    have h0 : ("" : String).length = 0 := by decide
    have hx0 : x.length ≠ 0 := fun h0' => hx (str_eq_empty_of_length x h0')
    omega

theorem joinSep_append (s : String) (xs ys : List String) (hxs : xs ≠ []) :
    joinSep s (xs ++ ys) = joinSep s (joinSep s xs :: ys) := by
  induction xs with
  | nil => exact absurd rfl hxs
  | cons p t ih =>
    cases t with
    | nil => cases ys <;> simp [joinSep]
    | cons q t' =>
      have ih' := ih (by simp)
      cases ys with
      | nil => simp [joinSep]
      | cons z w =>
        show p ++ s ++ joinSep s ((q :: t') ++ (z :: w)) = _
        rw [ih']
        show p ++ s ++ (joinSep s (q :: t') ++ s ++ joinSep s (z :: w))
           = p ++ s ++ joinSep s (q :: t') ++ s ++ joinSep s (z :: w)
        simp [String.append_assoc]

theorem joinSep_cons_congr (s a : String) (ys zs : List String)
    (h : joinSep s ys = joinSep s zs) (hn : ys = [] ↔ zs = []) :
    joinSep s (a :: ys) = joinSep s (a :: zs) := by
  cases ys with
  | nil => cases zs with
    | nil => rfl
    | cons z u => exact absurd (hn.mp rfl) (List.cons_ne_nil z u)
  | cons y t => cases zs with
    | nil => exact absurd (hn.mpr rfl) (List.cons_ne_nil y t)
    | cons z u =>
      show a ++ s ++ joinSep s (y :: t) = a ++ s ++ joinSep s (z :: u)
      rw [h]

theorem fragment_entry_spec (k : String) (v : JSValue) :
    (fragmentOf k v = "" ∧ entryPairs (k, v) = []) ∨
    (entryPairs (k, v) ≠ [] ∧ (∀ x ∈ entryPairs (k, v), x ≠ "") ∧
      fragmentOf k v = joinSep "&" (entryPairs (k, v))) := by
  cases v with
  | vNull => exact Or.inl ⟨rfl, rfl⟩
  | vUndefined => exact Or.inl ⟨rfl, rfl⟩
  | vArr xs =>
    cases xs with
    | nil => exact Or.inl ⟨rfl, rfl⟩
    | cons x t =>
      refine Or.inr ⟨by simp [entryPairs], ?_, rfl⟩
      intro y hy
      simp only [entryPairs, List.mem_map] at hy
      obtain ⟨w, _, rfl⟩ := hy
      exact pair_ne_empty _ _
  | vBool b => exact Or.inr ⟨by simp [entryPairs], by
      intro y hy
      simp only [entryPairs, List.mem_singleton] at hy
      subst hy
      exact pair_ne_empty _ _, rfl⟩
  | vNum n => exact Or.inr ⟨by simp [entryPairs], by
      intro y hy
      simp only [entryPairs, List.mem_singleton] at hy
      subst hy
      exact pair_ne_empty _ _, rfl⟩
  | vStr str => exact Or.inr ⟨by simp [entryPairs], by
      intro y hy
      simp only [entryPairs, List.mem_singleton] at hy
      subst hy
      exact pair_ne_empty _ _, rfl⟩
  | vObj fields => exact Or.inr ⟨by simp [entryPairs], by
      intro y hy
      simp only [entryPairs, List.mem_singleton] at hy
      subst hy
      exact pair_ne_empty _ _, rfl⟩


theorem kept_join_and_nil (ps : List (String × JSValue)) :
    (((ps.map (fun e => fragmentOf e.1 e.2)).filter (fun p => p != "")) = []
      ↔ queryPairs ps = [])
    ∧ joinSep "&" ((ps.map (fun e => fragmentOf e.1 e.2)).filter (fun p => p != ""))
      = joinSep "&" (queryPairs ps) := by
  induction ps with
  | nil => exact ⟨Iff.rfl, rfl⟩
  | cons e rest ih =>
    obtain ⟨k, v⟩ := e
    have hq : queryPairs ((k, v) :: rest) = entryPairs (k, v) ++ queryPairs rest := by
      simp [queryPairs]
    rcases fragment_entry_spec k v with ⟨hf, hp⟩ | ⟨hne, hel, hf⟩
    · constructor
      · rw [hq, hp]
        simpa [hf] using ih.1
      · rw [hq, hp]
        simpa [hf] using ih.2
    · cases hpc : entryPairs (k, v) with
      | nil => exact absurd hpc hne
      | cons y ys =>
        have hy : y ≠ "" := hel y (by rw [hpc]; exact List.mem_cons_self y ys)
        have hfne : fragmentOf k v ≠ "" := by
          rw [hf, hpc]
          exact joinSep_cons_ne "&" y ys hy
        constructor
        · rw [hq, hpc]
          simp [hfne]
        · rw [hq, hpc]
          simp only [List.map_cons, List.filter_cons]
          rw [if_pos (by simpa using hfne)]
          rw [joinSep_append "&" (y :: ys) (queryPairs rest) (List.cons_ne_nil y ys)]
          rw [hf, hpc]
          exact joinSep_cons_congr "&" _ _ _ ih.2 ih.1

theorem queryPairs_mem_ne (ps : List (String × JSValue)) (x : String)
    (hx : x ∈ queryPairs ps) : x ≠ "" := by
  simp only [queryPairs, List.mem_flatten, List.mem_map] at hx
  obtain ⟨l, ⟨e, he, rfl⟩, hxl⟩ := hx
  obtain ⟨k, v⟩ := e
  rcases fragment_entry_spec k v with ⟨_, hp⟩ | ⟨_, hel, _⟩
  · rw [hp] at hxl
    cases hxl
  · exact hel x hxl

theorem buildQueryString_eq_renderQuery (ps : List (String × JSValue)) :
    buildQueryString (some ps) = renderQuery (queryPairs ps) := by
  cases hps : ps with
  | nil => rfl
  | cons e rest =>
    simp only [buildQueryString]
    rw [if_neg (by simp)]
    have h := kept_join_and_nil (e :: rest)
    rw [h.2]
    cases hqp : queryPairs (e :: rest) with
    | nil => simp [renderQuery, joinSep]
    | cons y ys =>
      have hy : y ≠ "" := queryPairs_mem_ne (e :: rest) y (by rw [hqp]; exact List.mem_cons_self y ys)
      have hne := joinSep_cons_ne "&" y ys hy
      rw [if_neg (by simpa using hne)]
      rfl


/-- C5: for every param mapping containing an array-valued key, the query
string serialized by buildQueryString contains one key=value pair for each
element of the array, in the original order of the array. -/
theorem C5_array_pairs (pre post : List (String × JSValue)) (k : String)
    (xs : List JSValue) :
    buildQueryString (some (pre ++ (k, .vArr xs) :: post)) =
      renderQuery (queryPairs pre ++
        xs.map (fun v => encodeURIComponent k ++ "=" ++ encodeURIComponent (jsToString v)) ++
        queryPairs post) := by
  rw [buildQueryString_eq_renderQuery]
  congr 1
  simp [queryPairs, entryPairs, List.map_append, List.flatten_append]

/-- C6: null- and undefined-valued keys contribute no pair to the query
string, and a missing or empty param mapping serializes to the empty
string, with no leading question mark. -/
theorem C6_nullish_skipped_empty_serialization (pre post : List (String × JSValue))
    (k : String) :
    buildQueryString none = "" ∧
    buildQueryString (some []) = "" ∧
    buildQueryString (some (pre ++ (k, .vNull) :: post)) =
      buildQueryString (some (pre ++ post)) ∧
    buildQueryString (some (pre ++ (k, .vUndefined) :: post)) =
      buildQueryString (some (pre ++ post)) := by
  refine ⟨rfl, rfl, ?_, ?_⟩ <;>
  · rw [buildQueryString_eq_renderQuery, buildQueryString_eq_renderQuery]
    congr 1
    simp [queryPairs, entryPairs, List.map_append, List.flatten_append]

/-- C7: through the second-variant interceptor and the fetch hook queryFn,
the envelope with statusCode 200, error false and data the object id 1
resolves with that object, and the envelope with statusCode 404, error true
and message not-found rejects with exactly that message. -/
theorem C7_fetch_scenarios :
    fetchQueryFn ⟨200, some ⟨200, false, none, some (.vObj [("id", .vNum 1)])⟩⟩
      = .ok (.vObj [("id", .vNum 1)]) ∧
    fetchQueryFn ⟨200, some ⟨404, true, some "not found", none⟩⟩
      = .error "not found" := by
  constructor <;> rfl

/-- C8: when the delete confirmation prompt is shown and declined, the
mutationFn throws the cancellation error and no network request is issued. -/
theorem C8_declined_confirmation (url msg id : String) :
    deleteMutationFn url (some msg) false id = (.error "Deletion cancelled", false) := by
  rfl


/-- C1 counterexample: the envelope with statusCode 200, error false and no
data field is accepted by the second-variant success handler instead of
raising, refuting the claim that an absent data field raises. -/
theorem C1_counterexample : ¬ C1ClaimStatement := by
  intro h
  obtain ⟨e, he⟩ := h ⟨200, some ⟨200, false, none, none⟩⟩ ⟨200, false, none, none⟩ rfl rfl
  have h2 : (Except.ok ⟨200, some ⟨200, false, none, none⟩⟩ : Except String AxiosResp)
      = .error e := he
  exact Except.noConfusion h2

/-- C1 amended: the second-variant success handler raises when the response
body is absent, returns the response unchanged when the envelope statusCode
is 200 or 201 with error false, and otherwise raises with the envelope
message or the fixed default; the data field is never checked. The
first-variant handler checks only the HTTP status and falls through with
undefined instead of raising on non-success. -/
theorem C1_amended_interceptor (res : AxiosResp) :
    (res.body = none → interceptResponseV2 res = .error "Error in response" ∧
      interceptResponseV1 res = .error "Error in response") ∧
    (∀ env, res.body = some env →
      (((env.statusCode = 200 ∨ env.statusCode = 201) ∧ env.error = false) →
        interceptResponseV2 res = .ok res) ∧
      (¬((env.statusCode = 200 ∨ env.statusCode = 201) ∧ env.error = false) →
        interceptResponseV2 res = .error (strOrDefault env.message "Unknown API error")) ∧
      ((res.status = 200 ∨ res.status = 201) → interceptResponseV1 res = .ok (.envelope env)) ∧
      (¬(res.status = 200 ∨ res.status = 201) → interceptResponseV1 res = .ok .implicitUndefined)) := by
  constructor
  · intro hb
    simp [interceptResponseV2, interceptResponseV1, hb]
  · intro env hb
    refine ⟨?_, ?_, ?_, ?_⟩
    · rintro ⟨hs, he⟩
      rcases hs with hs | hs <;>
        simp [interceptResponseV2, hb, hs, he]
    · intro hn
      rw [not_and_or, not_or] at hn
      simp only [interceptResponseV2, hb]
      rw [if_neg]
      rcases hn with ⟨h200, h201⟩ | herr
      · simp [h200, h201]
      · simp [herr]
    · intro hs
      rcases hs with hs | hs <;> simp [interceptResponseV1, hb, hs]
    · intro hn
      rw [not_or] at hn
      simp [interceptResponseV1, hb, hn.1, hn.2]

/-- C1 amended witness: the success branch at a concrete response. -/
theorem C1_amended_witness :
    ((⟨200, some ⟨200, false, none, none⟩⟩ : AxiosResp).body = some ⟨200, false, none, none⟩ ∧
      ((200 = 200 ∨ 200 = 201) ∧ false = false)) ∧
    interceptResponseV2 ⟨200, some ⟨200, false, none, none⟩⟩
      = .ok ⟨200, some ⟨200, false, none, none⟩⟩ :=
  ⟨⟨rfl, Or.inl rfl, rfl⟩,
    ((C1_amended_interceptor ⟨200, some ⟨200, false, none, none⟩⟩).2
      ⟨200, false, none, none⟩ rfl).1 ⟨Or.inl rfl, rfl⟩⟩


/-- C3 counterexample: with a present but falsy id (the empty string), the
mutationFn leaves the url unchanged, while the claim demands url slash id. -/
theorem C3_counterexample : ¬ C3ClaimStatement := by
  intro h
  have h1 := h.1 "base" [("id", .vStr ""), ("payload", .vObj [("x", .vNum 1)])] rfl rfl
  have h2 : ("base" : String) = "base" ++ "/" ++ jsToString (getField
      [("id", .vStr ""), ("payload", .vObj [("x", .vNum 1)])] "id") :=
    congrArg PutRequest.url h1
  exact absurd h2 (by decide)

/-- C3 amended: for variables shaped as an object with both an id and a
payload field, the body is exactly the payload and the url gains the slash
id segment only when the id is truthy, staying unchanged for a falsy id;
any other variables value travels unchanged to the unchanged url. -/
theorem C3_amended_put_request (url : String) (v : JSValue) :
    (∀ fields, v = .vObj fields → isKeyedVariables v = true →
      (putMutationRequest url v).body = getField fields "payload" ∧
      (truthy (getField fields "id") = true →
        (putMutationRequest url v).url = url ++ "/" ++ jsToString (getField fields "id")) ∧
      (truthy (getField fields "id") = false → (putMutationRequest url v).url = url)) ∧
    (isKeyedVariables v = false → putMutationRequest url v = ⟨url, v⟩) := by
  constructor
  · rintro fields rfl hkey
    simp only [isKeyedVariables] at hkey
    refine ⟨?_, ?_, ?_⟩
    · simp [putMutationRequest, hkey]
    · intro ht; simp [putMutationRequest, hkey, ht]
    · intro ht; simp [putMutationRequest, hkey, ht]
  · intro hkey
    cases v <;> simp_all [putMutationRequest, isKeyedVariables]

/-- C3 amended witness: a truthy id 42 with payload x equal 1. -/
theorem C3_amended_witness :
    (JSValue.vObj [("id", .vStr "42"), ("payload", .vObj [("x", .vNum 1)])]
        = .vObj [("id", .vStr "42"), ("payload", .vObj [("x", .vNum 1)])] ∧
      isKeyedVariables (.vObj [("id", .vStr "42"), ("payload", .vObj [("x", .vNum 1)])]) = true ∧
      truthy (getField [("id", .vStr "42"), ("payload", .vObj [("x", .vNum 1)])] "id") = true) ∧
    (putMutationRequest "base"
        (.vObj [("id", .vStr "42"), ("payload", .vObj [("x", .vNum 1)])])).url
      = "base" ++ "/" ++ jsToString (getField
          [("id", .vStr "42"), ("payload", .vObj [("x", .vNum 1)])] "id") ∧
    (putMutationRequest "base"
        (.vObj [("id", .vStr "42"), ("payload", .vObj [("x", .vNum 1)])])).body
      = getField [("id", .vStr "42"), ("payload", .vObj [("x", .vNum 1)])] "payload" :=
  ⟨⟨rfl, rfl, rfl⟩,
    ((C3_amended_put_request "base"
      (.vObj [("id", .vStr "42"), ("payload", .vObj [("x", .vNum 1)])])).1
      [("id", .vStr "42"), ("payload", .vObj [("x", .vNum 1)])] rfl rfl).2.1 rfl,
    ((C3_amended_put_request "base"
      (.vObj [("id", .vStr "42"), ("payload", .vObj [("x", .vNum 1)])])).1
      [("id", .vStr "42"), ("payload", .vObj [("x", .vNum 1)])] rfl rfl).1⟩

/-- C4 counterexample: the first-variant error handler leaves the location
unchanged on a 401 (its redirect line is commented out), refuting the claim
that every 401 redirects to the sign-in entry point. -/
theorem C4_counterexample : ¬ C4ClaimStatement := by
  intro h
  have h1 := (h ⟨some 401, "Request failed with status code 401"⟩
    ⟨[("token", "t")], "/home", false⟩ rfl).1.2.1
  exact absurd h1 (by decide)

/-- C4 amended: on a 401 both error handlers clear local storage and
re-raise the original error; the second variant additionally signs out and
redirects to the login route, while the first leaves the location as it
was. -/
theorem C4_amended_unauthorized (err : AxiosErr) (st : BrowserState)
    (h : err.status = some 401) :
    ((responseErrorV1 err st).1.localStorage = [] ∧
     (responseErrorV1 err st).1.locationHref = st.locationHref ∧
     (responseErrorV1 err st).2 = err) ∧
    ((responseErrorV2 err st).1.localStorage = [] ∧
     (responseErrorV2 err st).1.locationHref = "/login" ∧
     (responseErrorV2 err st).1.signedOut = true ∧
     (responseErrorV2 err st).2 = err) := by
  simp [responseErrorV1, responseErrorV2, h]

/-- C4 amended witness: a 401 at a concrete browser state. -/
theorem C4_amended_witness :
    (AxiosErr.mk (some 401) "Request failed with status code 401").status = some 401 ∧
    ((responseErrorV1 ⟨some 401, "Request failed with status code 401"⟩
        ⟨[("token", "t")], "/home", false⟩).1.localStorage = [] ∧
      (responseErrorV1 ⟨some 401, "Request failed with status code 401"⟩
        ⟨[("token", "t")], "/home", false⟩).1.locationHref = "/home" ∧
      (responseErrorV2 ⟨some 401, "Request failed with status code 401"⟩
        ⟨[("token", "t")], "/home", false⟩).1.locationHref = "/login") :=
  ⟨rfl, by
    have h := C4_amended_unauthorized ⟨some 401, "Request failed with status code 401"⟩
      ⟨[("token", "t")], "/home", false⟩ rfl
    exact ⟨h.1.1, h.1.2.1, h.2.2.1⟩⟩

/-- C9 counterexample: an envelope with statusCode 401 and message Token
expired surfaces the fixed message Unauthorized, not the envelope message,
refuting the claim that the message is carried unchanged. -/
theorem C9_counterexample : ¬ C9ClaimStatement := by
  intro h
  have h1 := (h ⟨401, true, some "Token expired", none⟩ ⟨"Unauthorized", some 401⟩ rfl).1
    "Token expired" rfl
  exact absurd h1 (by decide)

/-- C9 amended: a failing put mutation throws the envelope message
(defaulting when absent) annotated with statusCode 400 for a 400 envelope,
throws the fixed message Unauthorized annotated with statusCode 401 for a
401 envelope, and throws the message unannotated otherwise. -/
theorem C9_amended_error_shape (response : ApiEnvelope)
    (hfail : ¬(response.statusCode = 200 ∨ response.statusCode = 201)) :
    putHandleResponse response =
      .error (if response.statusCode = 400 then
          ⟨response.message.getD "An error occurred while updating data", some 400⟩
        else if response.statusCode = 401 then ⟨"Unauthorized", some 401⟩
        else ⟨response.message.getD "An error occurred while updating data", none⟩) := by
  rw [not_or] at hfail
  simp only [putHandleResponse]
  rw [if_neg (by simp [hfail.1, hfail.2])]
  by_cases h400 : response.statusCode = 400
  · simp [h400]
  · by_cases h401 : response.statusCode = 401
    · simp [h400, h401]
    · simp [h400, h401]

/-- C9 amended witness: the 401 branch at a concrete envelope. -/
theorem C9_amended_witness :
    ¬((401 : Nat) = 200 ∨ (401 : Nat) = 201) ∧
    putHandleResponse ⟨401, true, some "Token expired", none⟩
      = .error ⟨"Unauthorized", some 401⟩ := by
  refine ⟨by decide, ?_⟩
  have h := C9_amended_error_shape ⟨401, true, some "Token expired", none⟩ (by decide)
  simpa using h


theorem truthy_ne_undefined (v : JSValue) (h : truthy v = true) : v ≠ .vUndefined := by
  intro hv
  rw [hv] at h
  simp [truthy] at h

theorem setQueryData_self (c : Cache) (k : String) (v : JSValue)
    (hv : v ≠ .vUndefined) : setQueryData c k v k = v := by
  cases v <;> simp_all [setQueryData]

/-- C2 counterexample: an update mutation against an empty cache writes the
optimistic value, fails, and the value stays: the snapshot (undefined) is
falsy, so the rollback guard skips the restore. -/
theorem C2_counterexample : ¬ C2ClaimStatement := by
  intro h
  have h1 := h.1 "users" [] (.vNum 1) (fun _ => .vUndefined)
  have h2 : JSValue.vNum 1 = JSValue.vUndefined := h1
  exact JSValue.noConfusion h2

/-- C2 amended: after a failing update or delete mutation, the entry under
the first configured key is restored to the pre-mutation snapshot provided
the snapshotted value is truthy and the key is a non-empty string; with a
falsy snapshot the optimistic value remains (see C10). -/
theorem C2_amended_rollback (k : String) (rest : List String) (vars : JSValue)
    (id : String) (c : Cache) (hk : k ≠ "") (hprev : truthy (c k) = true) :
    putFailingMutation (k :: rest) vars c k = c k ∧
    deleteFailingMutation (k :: rest) id c k = c k := by
  have hkt : truthy (.vStr k) = true := by simpa [truthy] using hk
  have hne := truthy_ne_undefined (c k) hprev
  constructor
  · show rollbackOnError (setQueryData c k vars) (some ⟨c k, k⟩) k = c k
    simp only [rollbackOnError, hprev, hkt, Bool.and_self, if_pos]
    exact setQueryData_self _ k (c k) hne
  · show rollbackOnError (setQueryDataFn c k (deleteOptimistic id)) (some ⟨c k, k⟩) k = c k
    simp only [rollbackOnError, hprev, hkt, Bool.and_self, if_pos]
    exact setQueryData_self _ k (c k) hne

/-- C2 amended witness: a cached list under the users key is restored. -/
theorem C2_amended_witness :
    ("users" ≠ "" ∧
      truthy ((fun q => if q == "users" then JSValue.vArr [.vObj [("id", .vNum 1)]]
        else .vUndefined) "users") = true) ∧
    (putFailingMutation ["users"] (.vNum 7)
        (fun q => if q == "users" then JSValue.vArr [.vObj [("id", .vNum 1)]]
          else .vUndefined) "users"
      = (fun q => if q == "users" then JSValue.vArr [.vObj [("id", .vNum 1)]]
          else .vUndefined) "users" ∧
    deleteFailingMutation ["users"] "1"
        (fun q => if q == "users" then JSValue.vArr [.vObj [("id", .vNum 1)]]
          else .vUndefined) "users"
      = (fun q => if q == "users" then JSValue.vArr [.vObj [("id", .vNum 1)]]
          else .vUndefined) "users") :=
  ⟨⟨by decide, rfl⟩,
    C2_amended_rollback "users" [] (.vNum 7) "1"
      (fun q => if q == "users" then JSValue.vArr [.vObj [("id", .vNum 1)]]
        else .vUndefined) (by decide) rfl⟩

/-- C10: when nothing truthy was cached under the first configured key
(snapshot undefined or null), the failing mutation performs no rollback:
the cache keeps exactly the value produced by the optimistic write step,
which for the update hook is the mutation variables themselves. -/
theorem C10_no_rollback_without_snapshot (k : String) (rest : List String)
    (vars : JSValue) (id : String) (c : Cache)
    (habsent : c k = .vUndefined ∨ c k = .vNull) :
    putFailingMutation (k :: rest) vars c k = (putOnMutate (k :: rest) vars c).1 k ∧
    (vars ≠ .vUndefined → putFailingMutation (k :: rest) vars c k = vars) ∧
    deleteFailingMutation (k :: rest) id c k = (deleteOnMutate (k :: rest) id c).1 k := by
  have hprev : truthy (c k) = false := by
    rcases habsent with h | h <;> rw [h] <;> rfl
  refine ⟨?_, ?_, ?_⟩
  · show rollbackOnError (setQueryData c k vars) (some ⟨c k, k⟩) k = setQueryData c k vars k
    simp [rollbackOnError, hprev]
  · intro hv
    show rollbackOnError (setQueryData c k vars) (some ⟨c k, k⟩) k = vars
    simp only [rollbackOnError, hprev, Bool.false_and, Bool.false_eq_true, if_neg]
    exact setQueryData_self c k vars hv
  · show rollbackOnError (setQueryDataFn c k (deleteOptimistic id)) (some ⟨c k, k⟩) k
      = setQueryDataFn c k (deleteOptimistic id) k
    simp [rollbackOnError, hprev]

/-- C10 witness: an empty cache, an update writing the number 1 and a
delete, all under the users key. -/
theorem C10_witness :
    ((fun _ : String => JSValue.vUndefined) "users" = JSValue.vUndefined ∨
      (fun _ : String => JSValue.vUndefined) "users" = JSValue.vNull) ∧
    (JSValue.vNum 1 ≠ JSValue.vUndefined) ∧
    (putFailingMutation ["users"] (.vNum 1) (fun _ => .vUndefined) "users"
        = (putOnMutate ["users"] (.vNum 1) (fun _ => .vUndefined)).1 "users" ∧
      putFailingMutation ["users"] (.vNum 1) (fun _ => .vUndefined) "users" = .vNum 1 ∧
      deleteFailingMutation ["users"] "1" (fun _ => .vUndefined) "users"
        = (deleteOnMutate ["users"] "1" (fun _ => .vUndefined)).1 "users") :=
  ⟨Or.inl rfl, fun h => JSValue.noConfusion h,
    (C10_no_rollback_without_snapshot "users" [] (.vNum 1) "1"
      (fun _ => .vUndefined) (Or.inl rfl)).1,
    (C10_no_rollback_without_snapshot "users" [] (.vNum 1) "1"
      (fun _ => .vUndefined) (Or.inl rfl)).2.1 (fun h => JSValue.noConfusion h),
    (C10_no_rollback_without_snapshot "users" [] (.vNum 1) "1"
      (fun _ => .vUndefined) (Or.inl rfl)).2.2⟩

end ApiDemo
